import Mathlib

/-!
Shallow embedding of the EV charging-station emulator core
(`src/core/Charger.ts` and `src/core/EmulatorManager.ts`).

Numbers are modelled as exact rationals; JavaScript's
`+(x).toFixed(d)` is modelled by rounding to `d` decimal places with
half-up rounding (`roundDec (10^d)`).  `Math.random()` draws are
explicit inputs in `[0, 1]`.  The session ledger (sqlite `sessions`
table) is modelled by the list of reserved session ids, which is all
`insertSessionStart` consults.  Asynchronous ledger finalization in
`stopSession` does not touch charger state, so it is modelled as an
emitted finalization request `(sessionId, reason)`.
-/

namespace EV

/-- `roundDec m x = ⌊x·m + 1/2⌋ / m`: rounding to the grid `ℤ/m`,
used with `m = 10^d` to model JavaScript `+(x).toFixed(d)`. -/
def roundDec (m : ℕ) (x : ℚ) : ℚ :=
  ((⌊x * (m : ℚ) + 1/2⌋ : ℤ) : ℚ) / (m : ℚ)

theorem roundDec_mono {m : ℕ} {x y : ℚ} (hxy : x ≤ y) :
    roundDec m x ≤ roundDec m y := by
  unfold roundDec
  rcases Nat.eq_zero_or_pos m with hm | hm
  · simp [hm]
  · have hmQ : (0 : ℚ) < (m : ℚ) := by exact_mod_cast hm
    apply (div_le_div_iff_of_pos_right hmQ).mpr
    have : x * (m : ℚ) + 1/2 ≤ y * (m : ℚ) + 1/2 := by
      have := mul_le_mul_of_nonneg_right hxy (le_of_lt hmQ)
      linarith
    exact_mod_cast Int.floor_mono this

theorem roundDec_int_div (m : ℕ) (hm : 0 < m) (k : ℤ) :
    roundDec m ((k : ℚ) / (m : ℚ)) = (k : ℚ) / (m : ℚ) := by
  unfold roundDec
  have hmQ : ((m : ℚ)) ≠ 0 := by
    exact_mod_cast Nat.pos_iff_ne_zero.mp hm
  have h1 : ((k : ℚ) / (m : ℚ)) * (m : ℚ) = (k : ℚ) := by
    field_simp
  rw [h1]
  have h2 : ⌊(k : ℚ) + 1/2⌋ = k := by
    rw [add_comm, Int.floor_add_int]
    norm_num
  rw [h2]

theorem roundDec_idem (m : ℕ) (hm : 0 < m) (x : ℚ) :
    roundDec m (roundDec m x) = roundDec m x := by
  unfold roundDec
  exact roundDec_int_div m hm _

theorem roundDec_intCast (m : ℕ) (hm : 0 < m) (k : ℤ) :
    roundDec m (k : ℚ) = (k : ℚ) := by
  have hmQ : ((m : ℚ)) ≠ 0 := by
    exact_mod_cast Nat.pos_iff_ne_zero.mp hm
  have h : ((k * m : ℤ) : ℚ) / (m : ℚ) = (k : ℚ) := by
    push_cast
    field_simp
  have := roundDec_int_div m hm (k * m)
  rw [h] at this
  exact this

theorem roundDec_nonneg (m : ℕ) (hm : 0 < m) {x : ℚ} (hx : 0 ≤ x) :
    0 ≤ roundDec m x := by
  have h0 : roundDec m (0 : ℚ) = 0 := by
    have := roundDec_intCast m hm 0
    simpa using this
  calc (0 : ℚ) = roundDec m 0 := h0.symm
    _ ≤ roundDec m x := roundDec_mono hx

/-- Bounds survive half-up decimal rounding when both endpoints are integers. -/
theorem roundDec_mem_Icc (m : ℕ) (hm : 0 < m) {a b : ℤ} {x : ℚ}
    (ha : (a : ℚ) ≤ x) (hb : x ≤ (b : ℚ)) :
    (a : ℚ) ≤ roundDec m x ∧ roundDec m x ≤ (b : ℚ) := by
  constructor
  · calc (a : ℚ) = roundDec m (a : ℚ) := (roundDec_intCast m hm a).symm
      _ ≤ roundDec m x := roundDec_mono ha
  · calc roundDec m x ≤ roundDec m (b : ℚ) := roundDec_mono hb
      _ = (b : ℚ) := roundDec_intCast m hm b

/-- Statuses of a charger: `'AVAILABLE' | 'CHARGING' | 'FAULTY' | 'OFFLINE'`. -/
inductive ChargerStatus where
  | AVAILABLE
  | CHARGING
  | FAULTY
  | OFFLINE
  deriving DecidableEq, Repr

/-- Charging modes: `'SLOW' | 'NORMAL' | 'FAST'`. -/
inductive ChargingMode where
  | SLOW
  | NORMAL
  | FAST
  deriving DecidableEq, Repr

/-- The mutable fields of class `Charger` that the core logic reads or
writes (telemetry timer handles and listener lists are I/O plumbing and
are not part of the state).  Timestamps (`Date.now()`) are integers in
milliseconds. -/
structure Charger where
  id : String
  status : ChargerStatus
  meterKWh : ℚ
  currentSessionId : Option String
  currentLimit : Option ℚ
  lastPower : ℚ
  lastHeartbeat : ℤ
  chargingMode : ChargingMode
  forceIdleMode : Bool
  idleStartTimestamp : Option ℤ
  deriving DecidableEq, Repr

/-- The `Charger` constructor (id fixed, created at time `now`). -/
def initCharger (id : String) (now : ℤ) : Charger :=
  { id := id
    status := .AVAILABLE
    meterKWh := 0
    currentSessionId := none
    currentLimit := none
    lastPower := 0
    lastHeartbeat := now
    chargingMode := .NORMAL
    forceIdleMode := false
    idleStartTimestamp := none }

/-- `randomBetween(min, max)` with the `Math.random()` draw `r` explicit:
`min + r * (max - min)`. -/
def randomBetween (min max r : ℚ) : ℚ :=
  min + r * (max - min)

/-- `const voltage = +(228 + Math.random() * 12).toFixed(2)` with the
draw `rV` explicit. -/
def simulatedVoltage (rV : ℚ) : ℚ :=
  roundDec 100 (228 + rV * 12)

/-- The `current` computed by `generateTelemetry` (lines 79-104 of
`Charger.ts`): zero when not `CHARGING`; the 2-decimal-rounded
`currentLimit` when throttled; otherwise a rounded random draw from the
range selected by `chargingMode`; forced to zero afterwards when
`forceIdleMode` is set while `CHARGING`. -/
def simulatedCurrent (c : Charger) (rC : ℚ) : ℚ :=
  let cur : ℚ :=
    if c.status = .CHARGING then
      match c.currentLimit with
      | some l => roundDec 100 l
      | none =>
        match c.chargingMode with
        | .SLOW => roundDec 100 (randomBetween 10 14 rC)
        | .NORMAL => roundDec 100 (randomBetween 15 22 rC)
        | .FAST => roundDec 100 (randomBetween 23 32 rC)
    else 0
  if c.forceIdleMode ∧ c.status = .CHARGING then 0 else cur

/-- Result of `stopSession`: the updated charger, together with the
ledger finalization request `(sessionId, updateReason)` issued by the
fire-and-forget async block when a session id was bound at call time
(`updateSessionStop` is the only charger-visible effect of that block). -/
structure StopResult where
  charger : Charger
  finalize : Option (String × String)
  deriving DecidableEq, Repr

/-- `Charger.stopSession(reason)` (lines 231-285): branch on `status`;
`sessionIdToUpdate` is captured before the branch, and the finalization
reason is overridden to `FAULT_RECOVERY` in the `FAULTY` branch. -/
def Charger.stopSession (c : Charger) (reason : String) : StopResult :=
  let sessionIdToUpdate := c.currentSessionId
  let next : Charger × String :=
    if c.status = .CHARGING then
      ({ c with status := .AVAILABLE, currentSessionId := none }, reason)
    else if c.status = .FAULTY then
      ({ c with currentSessionId := none, status := .AVAILABLE }, "FAULT_RECOVERY")
    else
      (c, reason)
  { charger := next.1
    finalize := sessionIdToUpdate.map (fun sid => (sid, next.2)) }

/-- The telemetry record emitted to listeners (timestamp and id fields
carry no logic and are omitted). -/
structure Telemetry where
  voltage : ℚ
  current : ℚ
  power_kW : ℚ
  energy_kWh : ℚ
  status : ChargerStatus
  deriving DecidableEq, Repr

/-- Inputs of one telemetry tick: the interval in seconds, the voltage
and current `Math.random()` draws, and `Date.now()`. -/
structure TickIn where
  intervalSeconds : ℚ
  rV : ℚ
  rC : ℚ
  now : ℤ
  deriving DecidableEq, Repr

/-- Result of one `generateTelemetry` call: updated charger, the
emitted telemetry (`none` when the idle-timeout early `return`
suppressed it), and a possible session finalization from the
idle-timeout `stopSession`. -/
structure TickResult where
  charger : Charger
  telemetry : Option Telemetry
  finalize : Option (String × String)
  deriving DecidableEq, Repr

/-- The tail of a telemetry tick: build the telemetry record, then
`sendHeartbeat()` (`lastHeartbeat = Date.now()`). -/
def emitTick (c : Charger) (voltage current power_kW : ℚ) (now : ℤ) :
    TickResult :=
  { charger := { c with lastHeartbeat := now }
    telemetry := some
      { voltage := voltage
        current := current
        power_kW := power_kW
        energy_kWh := c.meterKWh
        status := c.status }
    finalize := none }

/-- `Charger.generateTelemetry(intervalSeconds)` (lines 75-169):
voltage and current simulation, `power_kW = +((voltage*current)/1000).toFixed(4)`,
energy accumulation `meterKWh = +(meterKWh + power_kW*(intervalSeconds/3600)).toFixed(6)`,
`lastPower` update, idle-timeout detection (thresholds 0.1 A / 0.05 kW,
timeout 20000 ms) which may auto-stop the session with reason
`IDLE_TIMEOUT` and return early, and finally emission plus heartbeat. -/
def Charger.generateTelemetry (c : Charger) (tin : TickIn) : TickResult :=
  let voltage := simulatedVoltage tin.rV
  let current := simulatedCurrent c tin.rC
  let power_kW := roundDec 10000 (voltage * current / 1000)
  let deltaKWh := power_kW * (tin.intervalSeconds / 3600)
  let c1 : Charger :=
    { c with
      meterKWh := roundDec 1000000 (c.meterKWh + deltaKWh)
      lastPower := power_kW }
  if c1.status = .CHARGING then
    if current < 1/10 ∧ power_kW < 1/20 then
      match c1.idleStartTimestamp with
      | none =>
          emitTick { c1 with idleStartTimestamp := some tin.now }
            voltage current power_kW tin.now
      | some ts =>
          if tin.now - ts > 20000 then
            let r := Charger.stopSession
              { c1 with idleStartTimestamp := none } "IDLE_TIMEOUT"
            { charger := r.charger, telemetry := none, finalize := r.finalize }
          else
            emitTick c1 voltage current power_kW tin.now
    else
      emitTick { c1 with idleStartTimestamp := none }
        voltage current power_kW tin.now
  else
    emitTick c1 voltage current power_kW tin.now

/-- `Charger.throttleCurrent()` (lines 171-175):
`currentLimit = +(randomBetween(10, 15)).toFixed(2)`, draw `r` explicit. -/
def Charger.throttleCurrent (c : Charger) (r : ℚ) : Charger :=
  { c with currentLimit := some (roundDec 100 (randomBetween 10 15 r)) }

/-- `Charger.unthrottle()` (lines 177-182): clear `currentLimit` when set. -/
def Charger.unthrottle (c : Charger) : Charger :=
  if c.currentLimit ≠ none then { c with currentLimit := none } else c

/-- The ledger (sessions table) as the set of reserved session ids:
`insertSessionStart` only consults row existence keyed by id, and no
core operation ever deletes a row. -/
abbrev Ledger := List String

/-- Outcome of `Charger.startSession`: resulting charger and ledger,
the `{ok, error}` result value, and whether `insertSessionStart` was
reached (`CHARGER_BUSY` is returned before any ledger contact). -/
structure StartOutcome where
  charger : Charger
  ledger : Ledger
  ok : Bool
  error : Option String
  ledgerContacted : Bool
  deriving DecidableEq, Repr

/-- `Charger.startSession(sessionId)` (lines 204-229): reject with
`CHARGER_BUSY` when already `CHARGING`; otherwise try to reserve the id
in the ledger (`insertSessionStart` throws `SESSION_EXISTS` when the id
is already present); only after a successful reservation set
`status = CHARGING` and bind `currentSessionId`. -/
def Charger.startSession (c : Charger) (ledger : Ledger) (sessionId : String) :
    StartOutcome :=
  if c.status = .CHARGING then
    { charger := c, ledger := ledger, ok := false
      error := some "CHARGER_BUSY", ledgerContacted := false }
  else if sessionId ∈ ledger then
    { charger := c, ledger := ledger, ok := false
      error := some "SESSION_EXISTS", ledgerContacted := true }
  else
    { charger := { c with status := .CHARGING, currentSessionId := some sessionId }
      ledger := sessionId :: ledger
      ok := true, error := none, ledgerContacted := true }

/-- `Charger.injectFault(type)` (lines 286-294): stop the session with
reason `FAULT` when `CHARGING`, then unconditionally set `FAULTY` and
clear the session binding. -/
def Charger.injectFault (c : Charger) : StopResult :=
  if c.status = .CHARGING then
    let r := Charger.stopSession c "FAULT"
    { charger := { r.charger with status := .FAULTY, currentSessionId := none }
      finalize := r.finalize }
  else
    { charger := { c with status := .FAULTY, currentSessionId := none }
      finalize := none }

/-- `Charger.reset()` (lines 300-307): only effective when `FAULTY`. -/
def Charger.reset (c : Charger) : Charger :=
  if c.status = .FAULTY then
    { c with status := .AVAILABLE, currentSessionId := none }
  else c

/-- One charger's treatment by `EmulatorManager.checkHeartbeatStatus()`
(lines 78-98): force `OFFLINE` after `HEARTBEAT_TIMEOUT` (60000 ms)
without a heartbeat, restore `AVAILABLE` when a heartbeat is recent and
the charger was `OFFLINE`; `currentSessionId` is not touched. -/
def checkHeartbeatOne (now : ℤ) (c : Charger) : Charger :=
  let elapsed := now - c.lastHeartbeat
  if elapsed > 60000 then
    if c.status ≠ .OFFLINE then { c with status := .OFFLINE } else c
  else
    if c.status = .OFFLINE then { c with status := .AVAILABLE } else c

/-- `EmulatorManager.checkHeartbeatStatus()` over the whole registry. -/
def checkHeartbeatStatus (now : ℤ) (fleet : List Charger) : List Charger :=
  fleet.map (checkHeartbeatOne now)

/-- `EmulatorManager.getTotalPower()` (lines 41-49): sum `lastPower`
over chargers whose status is `CHARGING`. -/
def getTotalPower (fleet : List Charger) : ℚ :=
  fleet.foldl (fun total c => if c.status = .CHARGING then total + c.lastPower else total) 0

/-- Throttle every `CHARGING` charger in the list, drawing the random
value for the charger at position `i` from `draws i` (lines 63-72 of
`EmulatorManager.ts`). -/
def throttleChargingFrom (draws : ℕ → ℚ) : ℕ → List Charger → List Charger
  | _, [] => []
  | i, c :: rest =>
      (if c.status = .CHARGING then c.throttleCurrent (draws i) else c) ::
        throttleChargingFrom draws (i + 1) rest

/-- `EmulatorManager.applyThrottling()` (lines 51-76) with `GRID_LIMIT = 10`:
when aggregate power is at or below the limit, unthrottle every
`CHARGING` charger; otherwise throttle every `CHARGING` charger. -/
def applyThrottling (draws : ℕ → ℚ) (fleet : List Charger) : List Charger :=
  if getTotalPower fleet ≤ 10 then
    fleet.map (fun c => if c.status = .CHARGING then c.unthrottle else c)
  else
    throttleChargingFrom draws 0 fleet

/-- The operations that can touch a single charger's state: session
start/stop, fault injection, reset, a telemetry tick, and the
coordinator's heartbeat scan. -/
inductive Op where
  | start (sid : String)
  | stop (reason : String)
  | fault
  | reset
  | tick (tin : TickIn)
  | hb (now : ℤ)
  deriving DecidableEq, Repr

/-- Whether an operation is the coordinator's heartbeat scan. -/
def Op.isHb : Op → Bool
  | .hb _ => true
  | _ => false

/-- One step of the system on a charger together with the ledger. -/
def step (s : Charger × Ledger) (op : Op) : Charger × Ledger :=
  match op with
  | .start sid =>
      let o := s.1.startSession s.2 sid
      (o.charger, o.ledger)
  | .stop reason => ((s.1.stopSession reason).charger, s.2)
  | .fault => (s.1.injectFault.charger, s.2)
  | .reset => (s.1.reset, s.2)
  | .tick tin => ((s.1.generateTelemetry tin).charger, s.2)
  | .hb now => (checkHeartbeatOne now s.1, s.2)

/-- Run a sequence of operations from a state. -/
def run (s : Charger × Ledger) (ops : List Op) : Charger × Ledger :=
  ops.foldl step s

/-- A telemetry tick leaves `status` and `currentSessionId` unchanged,
except on the idle-timeout path where the auto-`stopSession` yields
`AVAILABLE` with no bound session. -/
theorem tick_status_session (c : Charger) (tin : TickIn) :
    ((c.generateTelemetry tin).charger.status = c.status ∧
      (c.generateTelemetry tin).charger.currentSessionId = c.currentSessionId) ∨
    ((c.generateTelemetry tin).charger.status = .AVAILABLE ∧
      (c.generateTelemetry tin).charger.currentSessionId = none) := by
  unfold Charger.generateTelemetry emitTick Charger.stopSession
  dsimp only
  repeat' split
  all_goals simp_all

/-- `stopSession` either moves the charger to `AVAILABLE` with no bound
session, or leaves it unchanged. -/
theorem stopSession_status_session (c : Charger) (reason : String) :
    ((c.stopSession reason).charger.status = .AVAILABLE ∧
      (c.stopSession reason).charger.currentSessionId = none) ∨
    (c.stopSession reason).charger = c := by
  unfold Charger.stopSession
  dsimp only
  repeat' split
  all_goals simp_all

/-- A telemetry tick never changes `meterKWh` downward paths aside:
it always sets `meterKWh` to the rounded accumulation and leaves
`currentLimit` untouched. -/
theorem tick_meter_limit (c : Charger) (tin : TickIn) :
    (c.generateTelemetry tin).charger.meterKWh
        = roundDec 1000000 (c.meterKWh +
            roundDec 10000 (simulatedVoltage tin.rV * simulatedCurrent c tin.rC / 1000)
              * (tin.intervalSeconds / 3600)) ∧
      (c.generateTelemetry tin).charger.currentLimit = c.currentLimit := by
  unfold Charger.generateTelemetry emitTick Charger.stopSession
  dsimp only
  repeat' split
  all_goals simp_all

/-- `startSession` either leaves the charger unchanged or transitions
it to `CHARGING` with the requested session bound. -/
theorem startSession_status_session (c : Charger) (ledger : Ledger) (sid : String) :
    (c.startSession ledger sid).charger = c ∨
    ((c.startSession ledger sid).charger.status = .CHARGING ∧
      (c.startSession ledger sid).charger.currentSessionId = some sid) := by
  unfold Charger.startSession
  repeat' split
  all_goals simp_all

/-- `injectFault` always ends `FAULTY` with no bound session. -/
theorem injectFault_status_session (c : Charger) :
    c.injectFault.charger.status = .FAULTY ∧
      c.injectFault.charger.currentSessionId = none := by
  unfold Charger.injectFault Charger.stopSession
  repeat' split
  all_goals simp_all

/-- `reset` either leaves the charger unchanged or moves it to
`AVAILABLE` with no bound session. -/
theorem reset_status_session (c : Charger) :
    c.reset = c ∨
    (c.reset.status = .AVAILABLE ∧ c.reset.currentSessionId = none) := by
  unfold Charger.reset
  repeat' split
  all_goals simp_all

/-- The heartbeat scan never touches `currentSessionId`, and only
produces `FAULTY` by leaving a `FAULTY` charger alone. -/
theorem checkHeartbeatOne_session (now : ℤ) (c : Charger) :
    (checkHeartbeatOne now c).currentSessionId = c.currentSessionId ∧
      ((checkHeartbeatOne now c).status = .FAULTY → c.status = .FAULTY) := by
  unfold checkHeartbeatOne
  dsimp only
  split_ifs
  all_goals simp_all

/-- The first half of the charger invariant: `FAULTY` implies no bound
session. -/
def faultyClear (c : Charger) : Prop :=
  c.status = .FAULTY → c.currentSessionId = none

/-- The second half of the charger invariant: a bound session implies
`CHARGING`. -/
def sessionCharging (c : Charger) : Prop :=
  c.currentSessionId ≠ none → c.status = .CHARGING

theorem step_faultyClear (t : Charger × Ledger) (op : Op)
    (h : faultyClear t.1) : faultyClear (step t op).1 := by
  cases op with
  | start sid =>
      rcases startSession_status_session t.1 t.2 sid with heq | ⟨hs, _⟩
      · simpa [step, faultyClear, heq] using h
      · intro hst
        rw [show (step t (Op.start sid)).1 = (t.1.startSession t.2 sid).charger
              from rfl] at hst
        rw [hs] at hst
        cases hst
  | stop reason =>
      rcases stopSession_status_session t.1 reason with ⟨hs, hss⟩ | heq
      · intro hst
        rw [show (step t (Op.stop reason)).1 = (t.1.stopSession reason).charger
              from rfl] at hst ⊢
        rw [hs] at hst
        cases hst
      · simpa [step, faultyClear, heq] using h
  | fault =>
      intro _
      exact (injectFault_status_session t.1).2
  | reset =>
      rcases reset_status_session t.1 with heq | ⟨hs, hss⟩
      · simpa [step, faultyClear, heq] using h
      · intro hst
        rw [show (step t Op.reset).1 = t.1.reset from rfl] at hst
        rw [hs] at hst
        cases hst
  | tick tin =>
      rcases tick_status_session t.1 tin with ⟨hs, hss⟩ | ⟨hs, hss⟩
      · intro hst
        rw [show (step t (Op.tick tin)).1 = (t.1.generateTelemetry tin).charger
              from rfl] at hst ⊢
        rw [hs] at hst
        rw [hss]
        exact h hst
      · intro hst
        rw [show (step t (Op.tick tin)).1 = (t.1.generateTelemetry tin).charger
              from rfl] at hst
        rw [hs] at hst
        cases hst
  | hb now =>
      intro hst
      rw [show (step t (Op.hb now)).1 = checkHeartbeatOne now t.1 from rfl] at hst ⊢
      rw [(checkHeartbeatOne_session now t.1).1]
      exact h ((checkHeartbeatOne_session now t.1).2 hst)

theorem step_sessionCharging (t : Charger × Ledger) (op : Op)
    (hop : op.isHb = false) (h : sessionCharging t.1) :
    sessionCharging (step t op).1 := by
  cases op with
  | start sid =>
      rcases startSession_status_session t.1 t.2 sid with heq | ⟨hs, _⟩
      · simpa [step, sessionCharging, heq] using h
      · intro _
        rw [show (step t (Op.start sid)).1 = (t.1.startSession t.2 sid).charger
              from rfl]
        exact hs
  | stop reason =>
      rcases stopSession_status_session t.1 reason with ⟨hs, hss⟩ | heq
      · intro hne
        rw [show (step t (Op.stop reason)).1 = (t.1.stopSession reason).charger
              from rfl] at hne
        rw [hss] at hne
        exact absurd rfl hne
      · simpa [step, sessionCharging, heq] using h
  | fault =>
      intro hne
      rw [show (step t Op.fault).1 = t.1.injectFault.charger from rfl] at hne
      rw [(injectFault_status_session t.1).2] at hne
      exact absurd rfl hne
  | reset =>
      rcases reset_status_session t.1 with heq | ⟨hs, hss⟩
      · simpa [step, sessionCharging, heq] using h
      · intro hne
        rw [show (step t Op.reset).1 = t.1.reset from rfl] at hne
        rw [hss] at hne
        exact absurd rfl hne
  | tick tin =>
      rcases tick_status_session t.1 tin with ⟨hs, hss⟩ | ⟨hs, hss⟩
      · intro hne
        rw [show (step t (Op.tick tin)).1 = (t.1.generateTelemetry tin).charger
              from rfl] at hne ⊢
        rw [hss] at hne
        rw [hs]
        exact h hne
      · intro hne
        rw [show (step t (Op.tick tin)).1 = (t.1.generateTelemetry tin).charger
              from rfl] at hne
        rw [hss] at hne
        exact absurd rfl hne
  | hb now =>
      cases hop

/-- Invariants that every `step` preserves also hold after any run. -/
theorem run_inv (P : Charger → Prop) :
    ∀ (ops : List Op) (s : Charger × Ledger),
      (∀ t op, op ∈ ops → P t.1 → P (step t op).1) →
      P s.1 → P (run s ops).1 := by
  intro ops
  induction ops with
  | nil =>
      intro s _ h
      exact h
  | cons op rest ih =>
      intro s hstep h
      have h1 : P (step s op).1 := hstep s op (by simp) h
      have h2 := ih (step s op) (fun t o ho hp => hstep t o (by simp [ho]) hp) h1
      simpa [run, List.foldl] using h2

/-- Claim C1 (amended): for every state reachable from a fresh charger
by startSession, stopSession, injectFault, reset, telemetry ticks and
heartbeat scans, `status = FAULTY` implies `currentSessionId = none`;
and along runs that contain no heartbeat scan, `currentSessionId ≠ none`
implies `status = CHARGING`.  (The heartbeat scan can move a `CHARGING`
charger with a bound session to `OFFLINE` without clearing the session,
so the second implication does not hold for arbitrary runs.) -/
theorem reachable_session_status_invariant (id : String) (now0 : ℤ)
    (ledger0 : Ledger) (ops : List Op) :
    ((run (initCharger id now0, ledger0) ops).1.status = .FAULTY →
      (run (initCharger id now0, ledger0) ops).1.currentSessionId = none) ∧
    ((∀ op ∈ ops, op.isHb = false) →
      (run (initCharger id now0, ledger0) ops).1.currentSessionId ≠ none →
      (run (initCharger id now0, ledger0) ops).1.status = .CHARGING) := by
  constructor
  · exact run_inv faultyClear ops _ (fun t op _ => step_faultyClear t op)
      (by simp [faultyClear, initCharger])
  · intro hnohb
    exact run_inv sessionCharging ops _
      (fun t op hmem => step_sessionCharging t op (hnohb op hmem))
      (by simp [sessionCharging, initCharger])

/-- Claim C1 counterexample: start a session on a fresh charger, then
let the heartbeat scan fire 100 s later (past the 60 s timeout).  The
charger is `OFFLINE` — not `CHARGING` — while `currentSessionId` is
still bound, refuting `currentSessionId ≠ null ⇒ status = CHARGING`
over the claimed operation set. -/
theorem session_bound_while_offline_cex :
    (run (initCharger "T1" 0, ([] : Ledger))
        [Op.start "S1", Op.hb 100000]).1.currentSessionId = some "S1" ∧
    (run (initCharger "T1" 0, ([] : Ledger))
        [Op.start "S1", Op.hb 100000]).1.status ≠ .CHARGING := by
  constructor
  · rfl
  · decide

theorem reachable_session_status_invariant_witness :
    (∀ op ∈ ([Op.start "S1"] : List Op), op.isHb = false) ∧
    (run (initCharger "T1" 0, ([] : Ledger))
        [Op.start "S1"]).1.currentSessionId ≠ none ∧
    (run (initCharger "T1" 0, ([] : Ledger)) [Op.start "S1"]).1.status
      = .CHARGING :=
  ⟨by decide, by decide,
    (reachable_session_status_invariant "T1" 0 [] [Op.start "S1"]).2
      (by decide) (by decide)⟩

/-- Claim C2: on a charger that is not `CHARGING`, `startSession` with
an id already reserved in the ledger returns
`{ok: false, error: SESSION_EXISTS}` with the charger and ledger fully
unchanged (though the ledger was contacted); with a fresh id the
charger transitions to `CHARGING` with the session bound, and the id is
reserved. -/
theorem startSession_reservation_gate (c : Charger) (ledger : Ledger)
    (sid : String) (h : c.status ≠ .CHARGING) :
    (sid ∈ ledger →
      c.startSession ledger sid =
        { charger := c, ledger := ledger, ok := false,
          error := some "SESSION_EXISTS", ledgerContacted := true }) ∧
    (sid ∉ ledger →
      c.startSession ledger sid =
        { charger := { c with status := .CHARGING, currentSessionId := some sid }
          ledger := sid :: ledger, ok := true, error := none,
          ledgerContacted := true }) := by
  constructor <;> intro hmem <;> simp [Charger.startSession, h, hmem]

theorem startSession_reservation_gate_witness :
    (initCharger "T1" 0).status ≠ .CHARGING ∧
    (initCharger "T1" 0).startSession ["S1"] "S1" =
      { charger := initCharger "T1" 0, ledger := ["S1"], ok := false,
        error := some "SESSION_EXISTS", ledgerContacted := true } :=
  ⟨by decide,
    (startSession_reservation_gate (initCharger "T1" 0) ["S1"] "S1"
      (by decide)).1 (by decide)⟩

/-- Claim C3: `startSession` on a `CHARGING` charger returns
`{ok: false, error: CHARGER_BUSY}` without contacting the ledger, and
the charger and ledger are unchanged. -/
theorem startSession_busy (c : Charger) (ledger : Ledger) (sid : String)
    (h : c.status = .CHARGING) :
    c.startSession ledger sid =
      { charger := c, ledger := ledger, ok := false,
        error := some "CHARGER_BUSY", ledgerContacted := false } := by
  simp [Charger.startSession, h]

theorem startSession_busy_witness :
    ({ initCharger "T1" 0 with
        status := ChargerStatus.CHARGING,
        currentSessionId := some "S0" } : Charger).status = .CHARGING ∧
    ({ initCharger "T1" 0 with
        status := ChargerStatus.CHARGING,
        currentSessionId := some "S0" } : Charger).startSession [] "S9" =
      { charger := { initCharger "T1" 0 with
          status := ChargerStatus.CHARGING, currentSessionId := some "S0" }
        ledger := [], ok := false,
        error := some "CHARGER_BUSY", ledgerContacted := false } :=
  ⟨rfl, startSession_busy _ [] "S9" rfl⟩

/-- Claim C5: `stopSession(reason)` on a `CHARGING` charger moves it to
`AVAILABLE`, clears the session binding and finalizes the bound session
with the supplied reason; on a `FAULTY` charger it clears any bound
session, moves to `AVAILABLE` and finalizes with `FAULT_RECOVERY`
regardless of the supplied reason; on an `AVAILABLE` charger the
charger state is unchanged. -/
theorem stopSession_behavior (c : Charger) (reason : String) :
    (c.status = .CHARGING →
      (c.stopSession reason).charger =
        { c with status := .AVAILABLE, currentSessionId := none } ∧
      (c.stopSession reason).finalize =
        c.currentSessionId.map (fun sid => (sid, reason))) ∧
    (c.status = .FAULTY →
      (c.stopSession reason).charger =
        { c with status := .AVAILABLE, currentSessionId := none } ∧
      (c.stopSession reason).finalize =
        c.currentSessionId.map (fun sid => (sid, "FAULT_RECOVERY"))) ∧
    (c.status = .AVAILABLE → (c.stopSession reason).charger = c) := by
  refine ⟨?_, ?_, ?_⟩ <;> intro h <;> simp [Charger.stopSession, h]

theorem stopSession_behavior_witness :
    ({ initCharger "T1" 0 with
        status := ChargerStatus.CHARGING,
        currentSessionId := some "S1" } : Charger).status = .CHARGING ∧
    (({ initCharger "T1" 0 with
        status := ChargerStatus.CHARGING,
        currentSessionId := some "S1" } : Charger).stopSession
          "USER_STOP").finalize = some ("S1", "USER_STOP") :=
  ⟨rfl, (((stopSession_behavior _ "USER_STOP").1 rfl).2).trans rfl⟩

/-- Claim C9: `stopSession` on an `OFFLINE` charger leaves the charger
(including its `status` and `currentSessionId`) unchanged, yet still
issues a ledger finalization with the caller-supplied reason whenever a
session id was bound at call time; and `OFFLINE` with a bound session
is reachable via the heartbeat scan. -/
theorem stopSession_offline_frame (c : Charger) (reason : String)
    (h : c.status = .OFFLINE) :
    ((c.stopSession reason).charger = c ∧
      (c.stopSession reason).finalize =
        c.currentSessionId.map (fun sid => (sid, reason))) ∧
    ((run (initCharger "T2" 0, ([] : Ledger))
        [Op.start "S2", Op.hb 80000]).1.status = .OFFLINE ∧
      (run (initCharger "T2" 0, ([] : Ledger))
        [Op.start "S2", Op.hb 80000]).1.currentSessionId = some "S2") := by
  refine ⟨?_, by decide, by rfl⟩
  simp [Charger.stopSession, h]

theorem stopSession_offline_frame_witness :
    ({ initCharger "T1" 0 with
        status := ChargerStatus.OFFLINE,
        currentSessionId := some "S1" } : Charger).status = .OFFLINE ∧
    (({ initCharger "T1" 0 with
        status := ChargerStatus.OFFLINE,
        currentSessionId := some "S1" } : Charger).stopSession
          "USER_STOP").charger =
      { initCharger "T1" 0 with
        status := ChargerStatus.OFFLINE, currentSessionId := some "S1" } ∧
    (({ initCharger "T1" 0 with
        status := ChargerStatus.OFFLINE,
        currentSessionId := some "S1" } : Charger).stopSession
          "USER_STOP").finalize = some ("S1", "USER_STOP") :=
  ⟨rfl, (stopSession_offline_frame _ "USER_STOP" rfl).1.1,
    ((stopSession_offline_frame _ "USER_STOP" rfl).1.2).trans rfl⟩

/-- Claim C10: `startSession` on a `FAULTY` or `OFFLINE` charger is not
rejected: with a fresh session id the charger transitions directly to
`CHARGING` with the session bound (no reset or recovery step needed),
and no ledger content can make it return `CHARGER_BUSY`. -/
theorem startSession_faulty_offline (c : Charger) (ledger : Ledger)
    (sid : String) (h : c.status = .FAULTY ∨ c.status = .OFFLINE)
    (hfree : sid ∉ ledger) :
    c.startSession ledger sid =
      { charger := { c with status := .CHARGING, currentSessionId := some sid }
        ledger := sid :: ledger, ok := true, error := none,
        ledgerContacted := true } ∧
    (∀ ledger2 : Ledger,
      (c.startSession ledger2 sid).error ≠ some "CHARGER_BUSY") := by
  have hne : c.status ≠ .CHARGING := by
    rcases h with h | h <;> simp [h]
  constructor
  · simp [Charger.startSession, hne, hfree]
  · intro ledger2
    by_cases hm : sid ∈ ledger2 <;> simp [Charger.startSession, hne, hm]

theorem startSession_faulty_offline_witness :
    (({ initCharger "T1" 0 with
        status := ChargerStatus.FAULTY } : Charger).status = .FAULTY ∨
      ({ initCharger "T1" 0 with
        status := ChargerStatus.FAULTY } : Charger).status = .OFFLINE) ∧
    ("S1" ∉ ([] : Ledger)) ∧
    ({ initCharger "T1" 0 with
        status := ChargerStatus.FAULTY } : Charger).startSession [] "S1" =
      { charger := { initCharger "T1" 0 with
          status := ChargerStatus.CHARGING,
          currentSessionId := some "S1" }
        ledger := ["S1"], ok := true, error := none,
        ledgerContacted := true } :=
  ⟨Or.inl rfl, by decide,
    (startSession_faulty_offline _ [] "S1" (Or.inl rfl) (by decide)).1⟩

/-- Validity of tick inputs: a non-negative interval and `Math.random()`
draws in the unit interval. -/
def TickIn.valid (tin : TickIn) : Prop :=
  0 ≤ tin.intervalSeconds ∧ 0 ≤ tin.rV ∧ tin.rV ≤ 1 ∧ 0 ≤ tin.rC ∧ tin.rC ≤ 1

/-- State invariant backing energy monotonicity: `meterKWh` is a
6-decimal value (it is only ever written through `toFixed(6)`, starting
from 0), and any throttle limit is non-negative (`throttleCurrent` only
writes values in [10, 15]). -/
def meterInv (c : Charger) : Prop :=
  roundDec 1000000 c.meterKWh = c.meterKWh ∧
    ∀ l, c.currentLimit = some l → 0 ≤ l

theorem simulatedVoltage_bounds {rV : ℚ} (h0 : 0 ≤ rV) (h1 : rV ≤ 1) :
    228 ≤ simulatedVoltage rV ∧ simulatedVoltage rV ≤ 240 := by
  have h := roundDec_mem_Icc 100 (by norm_num) (a := 228) (b := 240)
      (x := 228 + rV * 12) (by push_cast; linarith) (by push_cast; linarith)
  unfold simulatedVoltage
  constructor
  · have := h.1
    push_cast at this
    linarith
  · have := h.2
    push_cast at this
    linarith

theorem simulatedCurrent_nonneg (c : Charger) {rC : ℚ} (h0 : 0 ≤ rC)
    (hlim : ∀ l, c.currentLimit = some l → 0 ≤ l) :
    0 ≤ simulatedCurrent c rC := by
  unfold simulatedCurrent randomBetween
  dsimp only
  repeat' split
  all_goals first
    | exact le_refl 0
    | (apply roundDec_nonneg 100 (by norm_num)
       first
         | exact hlim _ (by assumption)
         | linarith)

/-- One telemetry tick with valid inputs never decreases `meterKWh`,
and preserves the backing invariant. -/
theorem tick_meter_mono (c : Charger) (tin : TickIn)
    (hinv : meterInv c) (hv : tin.valid) :
    c.meterKWh ≤ (c.generateTelemetry tin).charger.meterKWh ∧
      meterInv (c.generateTelemetry tin).charger := by
  obtain ⟨hfix, hlim⟩ := hinv
  obtain ⟨hs, hv0, hv1, hc0, hc1⟩ := hv
  have hV : (0 : ℚ) ≤ simulatedVoltage tin.rV :=
    le_trans (by norm_num) (simulatedVoltage_bounds hv0 hv1).1
  have hC : (0 : ℚ) ≤ simulatedCurrent c tin.rC :=
    simulatedCurrent_nonneg c hc0 hlim
  have hP : (0 : ℚ) ≤
      roundDec 10000 (simulatedVoltage tin.rV * simulatedCurrent c tin.rC / 1000) :=
    roundDec_nonneg 10000 (by norm_num)
      (div_nonneg (mul_nonneg hV hC) (by norm_num))
  have hdelta : (0 : ℚ) ≤
      roundDec 10000 (simulatedVoltage tin.rV * simulatedCurrent c tin.rC / 1000)
        * (tin.intervalSeconds / 3600) :=
    mul_nonneg hP (div_nonneg hs (by norm_num))
  have hmeter := (tick_meter_limit c tin).1
  have hlimeq := (tick_meter_limit c tin).2
  refine ⟨?_, ?_, ?_⟩
  · rw [hmeter]
    calc c.meterKWh = roundDec 1000000 c.meterKWh := hfix.symm
      _ ≤ _ := roundDec_mono (by linarith)
  · rw [hmeter]
    exact roundDec_idem 1000000 (by norm_num) _
  · intro l hl
    rw [hlimeq] at hl
    exact hlim l hl

/-- The successive charger states along a sequence of telemetry ticks
(the state before any tick first). -/
def ticksFrom (c : Charger) (ins : List TickIn) : List Charger :=
  List.scanl (fun c tin => (c.generateTelemetry tin).charger) c ins

theorem scanl_head_eq (f : Charger → TickIn → Charger) (c : Charger)
    (l : List TickIn) : (List.scanl f c l).head? = some c := by
  cases l <;> rfl

/-- Claim C4: over any sequence of telemetry ticks with non-negative
interval and unit-interval random draws, starting from a charger whose
meter is a 6-decimal value and whose throttle limit (if any) is
non-negative — both invariants of every reachable charger — `meterKWh`
is non-decreasing from each state to the next. -/
theorem meter_nondecreasing (c : Charger) (ins : List TickIn)
    (hinv : meterInv c) (hval : ∀ tin ∈ ins, tin.valid) :
    List.Chain' (fun a b : Charger => a.meterKWh ≤ b.meterKWh)
      (ticksFrom c ins) := by
  induction ins generalizing c with
  | nil => simp [ticksFrom]
  | cons tin rest ih =>
      have hmono := tick_meter_mono c tin hinv (hval tin (by simp))
      have hch := ih (c.generateTelemetry tin).charger hmono.2
        (fun t ht => hval t (by simp [ht]))
      show List.Chain' _
        (c :: ticksFrom ((c.generateTelemetry tin).charger) rest)
      refine List.chain'_cons'.mpr ⟨?_, hch⟩
      intro b hb
      rw [show ticksFrom ((c.generateTelemetry tin).charger) rest
            = List.scanl _ ((c.generateTelemetry tin).charger) rest from rfl,
        scanl_head_eq] at hb
      cases hb
      exact hmono.1

theorem initCharger_meterInv (id : String) (now0 : ℤ) :
    meterInv (initCharger id now0) := by
  constructor
  · norm_num [initCharger, roundDec]
  · intro l hl
    exact Option.noConfusion hl

theorem singleTick_valid :
    ∀ tin ∈ ([⟨10, 1/2, 1/2, 1000⟩] : List TickIn), tin.valid := by
  intro tin htin
  rw [List.mem_singleton] at htin
  subst htin
  exact ⟨by norm_num, by norm_num, by norm_num, by norm_num, by norm_num⟩

theorem meter_nondecreasing_witness :
    meterInv (initCharger "T1" 0) ∧
    (∀ tin ∈ ([⟨10, 1/2, 1/2, 1000⟩] : List TickIn), tin.valid) ∧
    List.Chain' (fun a b : Charger => a.meterKWh ≤ b.meterKWh)
      (ticksFrom (initCharger "T1" 0) [⟨10, 1/2, 1/2, 1000⟩]) :=
  ⟨initCharger_meterInv "T1" 0, singleTick_valid,
    meter_nondecreasing (initCharger "T1" 0) [⟨10, 1/2, 1/2, 1000⟩]
      (initCharger_meterInv "T1" 0) singleTick_valid⟩

/-- Every reachable charger satisfies the invariant backing energy
monotonicity, so the hypotheses of the tick-monotonicity theorem are
met along real runs. -/
theorem meterInv_reachable (id : String) (now0 : ℤ) (ledger0 : Ledger)
    (ops : List Op) : meterInv (run (initCharger id now0, ledger0) ops).1 := by
  refine run_inv meterInv ops (initCharger id now0, ledger0) ?_
    (initCharger_meterInv id now0)
  · intro t op _ h
    obtain ⟨hfix, hlim⟩ := h
    cases op with
    | start sid =>
        unfold step Charger.startSession
        dsimp only
        repeat' split
        all_goals exact ⟨hfix, hlim⟩
    | stop reason =>
        unfold step Charger.stopSession
        dsimp only
        repeat' split
        all_goals exact ⟨hfix, hlim⟩
    | fault =>
        unfold step Charger.injectFault Charger.stopSession
        dsimp only
        repeat' split
        all_goals exact ⟨hfix, hlim⟩
    | reset =>
        unfold step Charger.reset
        dsimp only
        repeat' split
        all_goals exact ⟨hfix, hlim⟩
    | tick tin =>
        refine ⟨?_, ?_⟩
        · rw [show (step t (Op.tick tin)).1 = (t.1.generateTelemetry tin).charger
              from rfl, (tick_meter_limit t.1 tin).1]
          exact roundDec_idem 1000000 (by norm_num) _
        · intro l hl
          rw [show (step t (Op.tick tin)).1 = (t.1.generateTelemetry tin).charger
              from rfl, (tick_meter_limit t.1 tin).2] at hl
          exact hlim l hl
    | hb now =>
        unfold step checkHeartbeatOne
        dsimp only
        repeat' split
        all_goals exact ⟨hfix, hlim⟩

/-- Claim C6 (amended): on a telemetry tick with unit-interval draws,
the simulated current is 0 when `CHARGING` with `forceIdleMode`; equals
the 2-decimal rounding of `currentLimit` when a limit is set (identical
to the limit whenever the limit has at most two decimals, as every
limit written by `throttleCurrent` does); lies in [10,14] / [15,22] /
[23,32] for SLOW / NORMAL / FAST with no limit; is 0 for every
non-`CHARGING` status; voltage lies in [228,240]; and the emitted
`power_kW` is `voltage * current / 1000` rounded to 4 decimals. -/
theorem telemetry_ranges (c : Charger) (tin : TickIn)
    (hc0 : 0 ≤ tin.rC) (hc1 : tin.rC ≤ 1)
    (hv0 : 0 ≤ tin.rV) (hv1 : tin.rV ≤ 1) :
    (c.status = .CHARGING → c.forceIdleMode = true →
      simulatedCurrent c tin.rC = 0) ∧
    (c.status = .CHARGING → c.forceIdleMode = false →
      ∀ l, c.currentLimit = some l →
        simulatedCurrent c tin.rC = roundDec 100 l ∧
          (roundDec 100 l = l → simulatedCurrent c tin.rC = l)) ∧
    (c.status = .CHARGING → c.forceIdleMode = false → c.currentLimit = none →
      ((c.chargingMode = .SLOW →
          10 ≤ simulatedCurrent c tin.rC ∧ simulatedCurrent c tin.rC ≤ 14) ∧
        (c.chargingMode = .NORMAL →
          15 ≤ simulatedCurrent c tin.rC ∧ simulatedCurrent c tin.rC ≤ 22) ∧
        (c.chargingMode = .FAST →
          23 ≤ simulatedCurrent c tin.rC ∧ simulatedCurrent c tin.rC ≤ 32))) ∧
    (¬ c.status = .CHARGING → simulatedCurrent c tin.rC = 0) ∧
    (228 ≤ simulatedVoltage tin.rV ∧ simulatedVoltage tin.rV ≤ 240) ∧
    (∀ t, (c.generateTelemetry tin).telemetry = some t →
      t.voltage = simulatedVoltage tin.rV ∧
        t.current = simulatedCurrent c tin.rC ∧
        t.power_kW =
          roundDec 10000 (simulatedVoltage tin.rV * simulatedCurrent c tin.rC / 1000)) := by
  refine ⟨?_, ?_, ?_, ?_, simulatedVoltage_bounds hv0 hv1, ?_⟩
  · intro h hf
    simp [simulatedCurrent, h, hf]
  · intro h hf l hl
    constructor
    · simp [simulatedCurrent, h, hf, hl]
    · intro hfx
      simp [simulatedCurrent, h, hf, hl, hfx]
  · intro h hf hl
    refine ⟨?_, ?_, ?_⟩ <;> intro hm <;>
      simp only [simulatedCurrent, h, hf, hl, hm] <;>
      simp only [if_true, if_pos rfl, Bool.false_eq_true, false_and, if_false]
    · have hb := roundDec_mem_Icc 100 (by norm_num) (a := 10) (b := 14)
        (x := randomBetween 10 14 tin.rC)
        (by unfold randomBetween; push_cast; nlinarith)
        (by unfold randomBetween; push_cast; nlinarith)
      constructor
      · have := hb.1
        push_cast at this
        simpa using this
      · have := hb.2
        push_cast at this
        simpa using this
    · have hb := roundDec_mem_Icc 100 (by norm_num) (a := 15) (b := 22)
        (x := randomBetween 15 22 tin.rC)
        (by unfold randomBetween; push_cast; nlinarith)
        (by unfold randomBetween; push_cast; nlinarith)
      constructor
      · have := hb.1
        push_cast at this
        simpa using this
      · have := hb.2
        push_cast at this
        simpa using this
    · have hb := roundDec_mem_Icc 100 (by norm_num) (a := 23) (b := 32)
        (x := randomBetween 23 32 tin.rC)
        (by unfold randomBetween; push_cast; nlinarith)
        (by unfold randomBetween; push_cast; nlinarith)
      constructor
      · have := hb.1
        push_cast at this
        simpa using this
      · have := hb.2
        push_cast at this
        simpa using this
  · intro h
    simp [simulatedCurrent, h]
  · intro t ht
    unfold Charger.generateTelemetry emitTick at ht
    dsimp only at ht
    repeat' split at ht
    all_goals simp only [Option.some.injEq] at ht
    all_goals first
      | exact Option.noConfusion ht
      | (subst ht; exact ⟨rfl, rfl, rfl⟩)

/-- The charger of the claim C6 counterexample: `CHARGING` with a
2-decimal throttle limit of 10.01 A. -/
def cexCharger : Charger :=
  { initCharger "T1" 0 with
    status := .CHARGING, currentLimit := some (1001/100) }

/-- The tick of the claim C6 counterexample: 1 s interval, voltage draw
1/1200 (so voltage is exactly 228.01 V), current draw 0. -/
def cexTick : TickIn := ⟨1, 1/1200, 0, 0⟩

theorem cex_voltage : simulatedVoltage cexTick.rV = 22801/100 := by
  norm_num [simulatedVoltage, cexTick, roundDec]

theorem cex_current : simulatedCurrent cexCharger cexTick.rC = 1001/100 := by
  norm_num [simulatedCurrent, cexCharger, cexTick, initCharger, roundDec]

/-- Claim C6 counterexample: on a `CHARGING` charger with limit 10.01 A
and voltage 228.01 V, the emitted `power_kW` is 2.2824 (the `toFixed(4)`
rounding), while `voltage * current / 1000 = 2.2823801`; so
`power_kW = voltage * current / 1000` fails as an exact equation. -/
theorem telemetry_power_rounding_cex :
    (cexCharger.generateTelemetry cexTick).telemetry =
      some { voltage := 22801/100, current := 1001/100,
             power_kW := 22824/10000, energy_kWh := 634/1000000,
             status := .CHARGING } ∧
    ¬ ((22824 : ℚ)/10000 = (22801/100) * (1001/100) / 1000) := by
  constructor
  · have hP : roundDec 10000
        (simulatedVoltage cexTick.rV * simulatedCurrent cexCharger cexTick.rC / 1000)
          = 22824/10000 := by
      rw [cex_voltage, cex_current]
      norm_num [roundDec]
    have hnotidle : ¬ (simulatedCurrent cexCharger cexTick.rC < 1/10 ∧
        roundDec 10000
          (simulatedVoltage cexTick.rV * simulatedCurrent cexCharger cexTick.rC / 1000)
            < 1/20) := by
      rw [cex_current]
      intro hx
      have := hx.1
      norm_num at this
    have hP2 : roundDec 10000 ((22801 : ℚ)/100 * (1001/100) / 1000)
        = 22824/10000 := by
      norm_num [roundDec]
    unfold Charger.generateTelemetry emitTick
    dsimp only
    rw [if_pos (show cexCharger.status = .CHARGING from rfl), if_neg hnotidle]
    rw [cex_voltage, cex_current, hP2]
    have hE : roundDec 1000000
        (cexCharger.meterKWh + 22824/10000 * (cexTick.intervalSeconds / 3600))
          = 634/1000000 := by
      norm_num [cexCharger, cexTick, initCharger, roundDec]
    rw [hE]
    simp [cexCharger, initCharger]
  · norm_num

theorem telemetry_ranges_witness :
    ((0 : ℚ) ≤ (⟨10, 1/2, 1/2, 0⟩ : TickIn).rC ∧
      (⟨10, 1/2, 1/2, 0⟩ : TickIn).rC ≤ 1 ∧
      0 ≤ (⟨10, 1/2, 1/2, 0⟩ : TickIn).rV ∧
      (⟨10, 1/2, 1/2, 0⟩ : TickIn).rV ≤ 1) ∧
    simulatedCurrent (initCharger "T1" 0) ((⟨10, 1/2, 1/2, 0⟩ : TickIn).rC) = 0 ∧
    228 ≤ simulatedVoltage ((⟨10, 1/2, 1/2, 0⟩ : TickIn).rV) :=
  ⟨⟨by norm_num, by norm_num, by norm_num, by norm_num⟩,
    (telemetry_ranges (initCharger "T1" 0) ⟨10, 1/2, 1/2, 0⟩
      (by norm_num) (by norm_num) (by norm_num) (by norm_num)).2.2.2.1
      (fun h => ChargerStatus.noConfusion h),
    ((telemetry_ranges (initCharger "T1" 0) ⟨10, 1/2, 1/2, 0⟩
      (by norm_num) (by norm_num) (by norm_num) (by norm_num)).2.2.2.2.1).1⟩

theorem unthrottle_eq (c : Charger) :
    c.unthrottle = { c with currentLimit := none } := by
  cases c with
  | mk cid st me se li lp lh cm fi ist =>
      cases li <;> simp [Charger.unthrottle]

theorem getTotalPower_eq (fleet : List Charger) :
    getTotalPower fleet =
      ((fleet.filter (fun c => c.status = .CHARGING)).map
        Charger.lastPower).sum := by
  have h : ∀ (l : List Charger) (a : ℚ),
      l.foldl (fun total c =>
          if c.status = .CHARGING then total + c.lastPower else total) a
        = a + ((l.filter (fun c => c.status = .CHARGING)).map
            Charger.lastPower).sum := by
    intro l
    induction l with
    | nil =>
        intro a
        simp
    | cons c rest ih =>
        intro a
        by_cases hc : c.status = .CHARGING <;>
          simp [List.foldl_cons, List.filter_cons, hc, ih] <;> ring
  simpa [getTotalPower] using h fleet 0

theorem forall₂_map_self {α : Type} (R : α → α → Prop) (g : α → α) :
    ∀ l : List α, (∀ a ∈ l, R a (g a)) → List.Forall₂ R l (l.map g) := by
  intro l
  induction l with
  | nil =>
      intro _
      exact List.Forall₂.nil
  | cons a t ih =>
      intro h
      exact List.Forall₂.cons (h a (by simp))
        (ih (fun b hb => h b (by simp [hb])))

theorem forall₂_throttleFrom (R : Charger → Charger → Prop) (draws : ℕ → ℚ)
    (h : ∀ (c : Charger) (i : ℕ),
      R c (if c.status = .CHARGING then c.throttleCurrent (draws i) else c)) :
    ∀ (l : List Charger) (i : ℕ),
      List.Forall₂ R l (throttleChargingFrom draws i l) := by
  intro l
  induction l with
  | nil =>
      intro i
      exact List.Forall₂.nil
  | cons c t ih =>
      intro i
      exact List.Forall₂.cons (h c i) (ih (i + 1))

/-- Claim C7: the fleet aggregate equals the sum of `lastPower` over
exactly the `CHARGING` chargers (all other statuses contribute nothing,
stale `lastPower` or not), and one `applyThrottling` pass either clears
the throttle of every `CHARGING` charger (aggregate ≤ `GRID_LIMIT` = 10)
or sets every `CHARGING` charger's limit to a value in [10, 15]
(aggregate above the limit), leaving every non-`CHARGING` charger
untouched in both cases. -/
theorem fleet_power_and_throttling (fleet : List Charger) (draws : ℕ → ℚ)
    (hdraws : ∀ i, 0 ≤ draws i ∧ draws i ≤ 1) :
    getTotalPower fleet =
      ((fleet.filter (fun c => c.status = .CHARGING)).map
        Charger.lastPower).sum ∧
    (getTotalPower fleet ≤ 10 →
      List.Forall₂ (fun c c' =>
        (c.status = .CHARGING → c' = { c with currentLimit := none }) ∧
        (c.status ≠ .CHARGING → c' = c)) fleet (applyThrottling draws fleet)) ∧
    (¬ getTotalPower fleet ≤ 10 →
      List.Forall₂ (fun c c' =>
        (c.status = .CHARGING →
          ∃ v, 10 ≤ v ∧ v ≤ 15 ∧ c' = { c with currentLimit := some v }) ∧
        (c.status ≠ .CHARGING → c' = c)) fleet (applyThrottling draws fleet)) := by
  refine ⟨getTotalPower_eq fleet, ?_, ?_⟩
  · intro hle
    rw [applyThrottling, if_pos hle]
    apply forall₂_map_self
    intro a _
    constructor
    · intro hc
      rw [if_pos hc, unthrottle_eq]
    · intro hc
      rw [if_neg hc]
  · intro hgt
    rw [applyThrottling, if_neg hgt]
    apply forall₂_throttleFrom
    intro a i
    constructor
    · intro hc
      rw [if_pos hc]
      refine ⟨roundDec 100 (randomBetween 10 15 (draws i)), ?_, ?_, rfl⟩
      · have hb := (roundDec_mem_Icc 100 (by norm_num) (a := 10) (b := 15)
          (x := randomBetween 10 15 (draws i))
          (by unfold randomBetween; push_cast; nlinarith [(hdraws i).1])
          (by unfold randomBetween; push_cast; nlinarith [(hdraws i).2])).1
        push_cast at hb
        exact hb
      · have hb := (roundDec_mem_Icc 100 (by norm_num) (a := 10) (b := 15)
          (x := randomBetween 10 15 (draws i))
          (by unfold randomBetween; push_cast; nlinarith [(hdraws i).1])
          (by unfold randomBetween; push_cast; nlinarith [(hdraws i).2])).2
        push_cast at hb
        exact hb
    · intro hc
      rw [if_neg hc]

/-- A two-charger fleet, both `CHARGING` at 6 kW, exceeding the 10 kW
grid limit (the throttling scenario of the design's testable
properties). -/
def witnessFleet : List Charger :=
  [{ initCharger "T1" 0 with
      status := ChargerStatus.CHARGING
      currentSessionId := some "S1"
      lastPower := 6 },
   { initCharger "T2" 0 with
      status := ChargerStatus.CHARGING
      currentSessionId := some "S2"
      lastPower := 6 }]

theorem fleet_power_and_throttling_witness :
    (∀ i : ℕ, 0 ≤ (fun _ : ℕ => (1 : ℚ)/2) i ∧
      (fun _ : ℕ => (1 : ℚ)/2) i ≤ 1) ∧
    ¬ getTotalPower witnessFleet ≤ 10 ∧
    List.Forall₂ (fun c c' =>
        (c.status = .CHARGING →
          ∃ v, 10 ≤ v ∧ v ≤ 15 ∧ c' = { c with currentLimit := some v }) ∧
        (c.status ≠ .CHARGING → c' = c))
      witnessFleet (applyThrottling (fun _ => (1 : ℚ)/2) witnessFleet) := by
  have hdraws : ∀ i : ℕ, 0 ≤ (fun _ : ℕ => (1 : ℚ)/2) i ∧
      (fun _ : ℕ => (1 : ℚ)/2) i ≤ 1 := by
    intro i
    exact ⟨by norm_num, by norm_num⟩
  have htot : ¬ getTotalPower witnessFleet ≤ 10 := by
    norm_num [getTotalPower, witnessFleet, initCharger]
  exact ⟨hdraws, htot,
    (fleet_power_and_throttling witnessFleet _ hdraws).2.2 htot⟩

/-- Claim C8: `throttleCurrent` always installs a limit in [10, 15];
`unthrottle` always ends with no limit; and, with the random draw held
fixed, both operations are idempotent. -/
theorem throttle_unthrottle_idem (c : Charger) (r : ℚ)
    (h0 : 0 ≤ r) (h1 : r ≤ 1) :
    (∃ v, (c.throttleCurrent r).currentLimit = some v ∧ 10 ≤ v ∧ v ≤ 15) ∧
    c.unthrottle.currentLimit = none ∧
    (c.throttleCurrent r).throttleCurrent r = c.throttleCurrent r ∧
    c.unthrottle.unthrottle = c.unthrottle := by
  refine ⟨⟨roundDec 100 (randomBetween 10 15 r), rfl, ?_, ?_⟩, ?_, ?_, ?_⟩
  · have hb := (roundDec_mem_Icc 100 (by norm_num) (a := 10) (b := 15)
      (x := randomBetween 10 15 r)
      (by unfold randomBetween; push_cast; nlinarith)
      (by unfold randomBetween; push_cast; nlinarith)).1
    push_cast at hb
    exact hb
  · have hb := (roundDec_mem_Icc 100 (by norm_num) (a := 10) (b := 15)
      (x := randomBetween 10 15 r)
      (by unfold randomBetween; push_cast; nlinarith)
      (by unfold randomBetween; push_cast; nlinarith)).2
    push_cast at hb
    exact hb
  · rw [unthrottle_eq]
  · rfl
  · simp [unthrottle_eq]

theorem throttle_unthrottle_idem_witness :
    ((0 : ℚ) ≤ 1/2 ∧ (1/2 : ℚ) ≤ 1) ∧
    (∃ v, ((initCharger "T1" 0).throttleCurrent (1/2)).currentLimit = some v ∧
      10 ≤ v ∧ v ≤ 15) ∧
    (initCharger "T1" 0).unthrottle.unthrottle =
      (initCharger "T1" 0).unthrottle :=
  ⟨⟨by norm_num, by norm_num⟩,
    (throttle_unthrottle_idem (initCharger "T1" 0) (1/2)
      (by norm_num) (by norm_num)).1,
    (throttle_unthrottle_idem (initCharger "T1" 0) (1/2)
      (by norm_num) (by norm_num)).2.2.2⟩

end EV
